import Mathlib

/-!
# Verification of the volume-gesture-control pipeline

A shallow embedding of the core of the VOLUME-GESTURE-CONTROL repository
(`src/app.py`, `src/volume_controller.py`): the smoothing filter
(`smooth_volume`), the per-frame pipeline of `generate_frames` in both its
simulation and live branches, and the audio backend dispatcher
(`VolumeController.set_volume`).  Python floats are modelled by rationals
(`ℚ`), Python ints by `ℤ`; wall-clock times are rationals.  External effects
(the success of a subprocess audio call, the hand-detection result of a
frame) enter as explicit per-call inputs.
-/

namespace VolumeGesture

/-- Python's `int(...)` conversion on a numeric value: truncation toward
zero (`int(3.7) = 3`, `int(-3.7) = -3`). -/
def pyInt (q : ℚ) : ℤ := if 0 ≤ q then ⌊q⌋ else ⌈q⌉

/-- The clamp `max(0, min(100, x))` used for positional readings. -/
def clamp100 (q : ℚ) : ℚ := max 0 (min 100 q)

/-- The constant `SMOOTHING_WINDOW = 5` (app.py line 19). -/
def SMOOTHING_WINDOW : ℕ := 5

/-- The buffer update of `smooth_volume` (app.py lines 53–55): append the
reading to `volume_smoothing_buffer`; if the buffer now exceeds
`SMOOTHING_WINDOW`, `pop(0)` the oldest entry. -/
def smooth_buffer (buffer : List ℚ) (new_volume : ℚ) : List ℚ :=
  if SMOOTHING_WINDOW < (buffer ++ [new_volume]).length then
    (buffer ++ [new_volume]).tail
  else
    buffer ++ [new_volume]

/-- Function `smooth_volume(new_volume)` (app.py lines 49–57): update the buffer,
then return `sum(buffer) / len(buffer)`.  The model returns the new buffer
together with the returned mean. -/
def smooth_volume (buffer : List ℚ) (new_volume : ℚ) : List ℚ × ℚ :=
  (smooth_buffer buffer new_volume,
    (smooth_buffer buffer new_volume).sum /
      ((smooth_buffer buffer new_volume).length : ℚ))

/-- Route `/calibrate` (app.py lines 222–227): reset `volume_smoothing_buffer`
to the empty list, whatever it held. -/
def calibrate (_buffer : List ℚ) : List ℚ := []

/-- The buffer after feeding a list of readings, in order, through
`smooth_volume`, starting from a given buffer. -/
def feed_buffer (buffer : List ℚ) (readings : List ℚ) : List ℚ :=
  readings.foldl (fun b r => (smooth_volume b r).1) buffer

/-- The backend selected by `VolumeController._init_system_volume`
(volume_controller.py lines 18–55): one of the four working methods, or
`unsupported` when no audio subsystem is found. -/
inductive VolumeMethod
  | windows_powershell
  | macos_osascript
  | linux_pulseaudio
  | linux_alsa
  | unsupported
deriving DecidableEq, Repr

/-- The mutable state of a `VolumeController` (volume_controller.py lines
8–16): the probed method, `current_volume` (initially 50), `last_set_time`
(initially 0) and `min_interval` (0.1 s). -/
structure VCState where
  volume_method : VolumeMethod
  current_volume : ℤ
  last_set_time : ℚ
  min_interval : ℚ
deriving DecidableEq, Repr

/-- Constructor `VolumeController.__init__` with a given probe outcome. -/
def VCState.init (m : VolumeMethod) : VCState :=
  { volume_method := m, current_volume := 50, last_set_time := 0,
    min_interval := 1 / 10 }

/-- Method `VolumeController._set_system_volume` (volume_controller.py lines
77–93): dispatch on the probed method.  Every supported branch shells out to
an external process and reports its success; `sys_ok` is that external
outcome.  The `unsupported` branch performs no write and returns `False`. -/
def set_system_volume (m : VolumeMethod) (sys_ok : Bool) : Bool :=
  match m with
  | .unsupported => false
  | _ => sys_ok

/-- The outcome of one `set_volume` call: the returned boolean, the
controller state after the call, and whether `_set_system_volume` was
invoked at all (`false` exactly on the rate-limited early return). -/
structure SetVolumeResult where
  ok : Bool
  state : VCState
  attempted : Bool
deriving DecidableEq, Repr

/-- Method `VolumeController.set_volume(volume_percent)` (volume_controller.py
lines 57–75): if `current_time - last_set_time < min_interval`, return
`False` at once; otherwise clamp `max(0, min(100, int(volume_percent)))`,
call `_set_system_volume`, and on success store the clamped volume and the
call time.  Exceptions are caught and reported as `False` with no state
change, which the `sys_ok = false` case covers. -/
def set_volume (s : VCState) (current_time : ℚ) (sys_ok : Bool)
    (volume_percent : ℚ) : SetVolumeResult :=
  if current_time - s.last_set_time < s.min_interval then
    ⟨false, s, false⟩
  else if set_system_volume s.volume_method sys_ok then
    ⟨true, { s with
        current_volume := max 0 (min 100 (pyInt volume_percent)),
        last_set_time := current_time }, true⟩
  else
    ⟨false, s, true⟩

/-- One call record for a trace of `set_volume` calls: the wall-clock time,
the external call's outcome, and the requested volume. -/
structure VCCall where
  time : ℚ
  sys_ok : Bool
  request : ℚ
deriving DecidableEq, Repr

/-- The controller state after a trace of `set_volume` calls. -/
def vc_run_state (s : VCState) : List VCCall → VCState
  | [] => s
  | c :: rest => vc_run_state (set_volume s c.time c.sys_ok c.request).state rest

/-- The times of the calls of a trace on which `set_volume` returned `True`
(that is, on which a hardware write succeeded), in order. -/
def success_times (s : VCState) : List VCCall → List ℚ
  | [] => []
  | c :: rest =>
    let r := set_volume s c.time c.sys_ok c.request
    if r.ok then c.time :: success_times r.state rest
    else success_times r.state rest

/-- The simulation oscillator's state (app.py lines 65–67):
`simulated_finger_y` starts at 240, `finger_direction` at 1. -/
structure SimState where
  simulated_finger_y : ℤ
  finger_direction : ℤ
deriving DecidableEq, Repr

/-- The oscillator's initial state. -/
def SimState.init : SimState := ⟨240, 1⟩

/-- One oscillator update (app.py lines 76–80): move by
`finger_direction * 2`, then set the direction to 1 when the new position is
`≤ 100` and to −1 when it is `≥ 380`. -/
def sim_step (st : SimState) : SimState :=
  let y := st.simulated_finger_y + st.finger_direction * 2
  let d := if y ≤ 100 then 1 else if y ≥ 380 then -1 else st.finger_direction
  ⟨y, d⟩

/-- The simulation branch's reading (app.py line 83):
`max(0, min(100, 100 - ((simulated_finger_y - 240) / 140 * 50)))`. -/
def sim_relative_height (y : ℤ) : ℚ :=
  clamp100 (100 - ((y : ℚ) - 240) / 140 * 50)

/-- The live branch's reading (app.py line 139):
`max(0, min(100, 100 - ((finger_y - wrist_y + 200) / 400 * 100)))`, where
`finger_y` and `wrist_y` are the fingertip's and wrist's pixel rows. -/
def live_relative_height (finger_y wrist_y : ℤ) : ℚ :=
  clamp100 (100 - ((finger_y : ℚ) - (wrist_y : ℚ) + 200) / 400 * 100)

/-- The app's module-level shared state (app.py lines 15–18): the global
`current_volume` that `/status` reports (initially 50), the global
`gesture_active` flag (initially `False`), the smoothing buffer (initially
empty), and the `VolumeController` instance's state. -/
structure AppState where
  current_volume : ℤ
  gesture_active : Bool
  buffer : List ℚ
  vc : VCState
deriving DecidableEq, Repr

/-- The app's state at process start, given the backend probe's outcome. -/
def app_init (m : VolumeMethod) : AppState :=
  { current_volume := 50, gesture_active := false, buffer := [],
    vc := VCState.init m }

/-- What one live frame observed: no hand detected (`landmarks` falsy), or a
hand with the fingertip's and wrist's pixel rows. -/
inductive LiveObservation
  | noHand
  | hand (finger_y wrist_y : ℤ)
deriving DecidableEq, Repr

/-- One iteration of `generate_frames` in simulation mode (app.py lines
70–109), restricted to the shared state: update the oscillator, compute the
reading, smooth it, and when `abs(smooth_height - current_volume) > 1`
assign `current_volume = int(smooth_height)`, call
`volume_controller.set_volume(current_volume)` (its result is ignored) and
set `gesture_active = True`; otherwise leave volume, controller and flag
untouched.  `t` is the wall-clock time of the frame's `set_volume` call and
`sys_ok` the external audio call's outcome. -/
def sim_frame (a : AppState) (sim : SimState) (t : ℚ) (sys_ok : Bool) :
    AppState × SimState :=
  let sim' := sim_step sim
  let reading := sim_relative_height sim'.simulated_finger_y
  let sm := smooth_volume a.buffer reading
  if 1 < |sm.2 - (a.current_volume : ℚ)| then
    let cv := pyInt sm.2
    let r := set_volume a.vc t sys_ok (cv : ℚ)
    (⟨cv, true, sm.1, r.state⟩, sim')
  else
    ({ a with buffer := sm.1 }, sim')

/-- One iteration of `generate_frames` in live-camera mode (app.py lines
111–157), restricted to the shared state.  With no hand detected, only
`gesture_active = False` is assigned.  With a hand, the reading is computed
and smoothed, and when `abs(smooth_height - current_volume) > 2` the volume
is assigned, dispatched and the flag set `True`, exactly as in simulation
mode; when the gate rejects, only the buffer has changed and
`gesture_active` keeps its previous value. -/
def live_frame (a : AppState) (obs : LiveObservation) (t : ℚ)
    (sys_ok : Bool) : AppState :=
  match obs with
  | .noHand => { a with gesture_active := false }
  | .hand fy wy =>
    let reading := live_relative_height fy wy
    let sm := smooth_volume a.buffer reading
    if 2 < |sm.2 - (a.current_volume : ℚ)| then
      let cv := pyInt sm.2
      let r := set_volume a.vc t sys_ok (cv : ℚ)
      ⟨cv, true, sm.1, r.state⟩
    else
      { a with buffer := sm.1 }

/-- The invariant the simulation oscillator maintains from its initial
state: direction ±1, position within `[100, 380]` and even, and the
direction pointing away from a bound whenever the position sits on one. -/
def SimInv (st : SimState) : Prop :=
  (st.finger_direction = 1 ∨ st.finger_direction = -1) ∧
  100 ≤ st.simulated_finger_y ∧ st.simulated_finger_y ≤ 380 ∧
  st.simulated_finger_y % 2 = 0 ∧
  (st.simulated_finger_y = 380 → st.finger_direction = -1) ∧
  (st.simulated_finger_y = 100 → st.finger_direction = 1)

/-! ## Helper lemmas about the smoothing filter -/

/-- The smoothed value is, definitionally, the mean of the updated buffer. -/
theorem smooth_volume_snd (b : List ℚ) (r : ℚ) :
    (smooth_volume b r).2 =
      (smooth_volume b r).1.sum / ((smooth_volume b r).1.length : ℚ) := rfl

/-- The buffer passed to the mean is never empty: the reading was appended
before the (single) eviction. -/
theorem smooth_volume_length_pos (buffer : List ℚ) (r : ℚ) :
    0 < (smooth_volume buffer r).1.length := by
  have hN : SMOOTHING_WINDOW = 5 := rfl
  show 0 < (smooth_buffer buffer r).length
  unfold smooth_buffer
  rw [hN]
  split
  · rename_i h
    simp only [List.length_tail, List.length_append,
      List.length_singleton] at *
    omega
  · simp

/-- Every element of the updated buffer was in the old buffer or is the new
reading. -/
theorem smooth_volume_buffer_mem (b : List ℚ) (r : ℚ) :
    ∀ x ∈ (smooth_volume b r).1, x ∈ b ++ [r] := by
  show ∀ x ∈ smooth_buffer b r, x ∈ b ++ [r]
  unfold smooth_buffer
  split
  · exact fun x hx => List.mem_of_mem_tail hx
  · exact fun x hx => hx

/-- Feeding one more reading composes with `feed_buffer`. -/
theorem feed_buffer_append (b : List ℚ) (xs : List ℚ) (r : ℚ) :
    feed_buffer b (xs ++ [r]) = (smooth_volume (feed_buffer b xs) r).1 := by
  simp [feed_buffer, List.foldl_append]

/-- From an empty buffer, feeding a list of readings leaves exactly the most
recent `SMOOTHING_WINDOW` of them (all of them while there are at most
`SMOOTHING_WINDOW`): the `pop(0)` eviction is FIFO. -/
theorem feed_buffer_nil_eq_drop (xs : List ℚ) :
    feed_buffer [] xs = xs.drop (xs.length - SMOOTHING_WINDOW) := by
  have hN : SMOOTHING_WINDOW = 5 := rfl
  induction xs using List.reverseRecOn with
  | nil => rfl
  | append_singleton xs r ih =>
    rw [feed_buffer_append, ih]
    show smooth_buffer _ r = _
    unfold smooth_buffer
    simp only [List.length_append, List.length_singleton, List.length_drop,
      hN]
    by_cases h : 5 < xs.length - (xs.length - 5) + 1
    · rw [if_pos h, ← List.drop_one,
        List.drop_append_of_le_length (by rw [List.length_drop]; omega),
        List.drop_drop, List.drop_append_of_le_length (by omega)]
      congr 2
      omega
    · have h5 : xs.length + 1 - 5 = 0 := by omega
      have h0 : xs.length - 5 = 0 := by omega
      rw [if_neg h, h5, h0]
      simp

/-! ## Smoothing-filter claims -/

/-- Claim C9: `smooth_volume` is total on every buffer state: the reading is
appended before the mean is taken, so the buffer at the division is
non-empty, the division is by a positive length, and the returned value
genuinely satisfies `value * length = sum` — there is no division by zero,
including on the first call after recalibration empties the buffer. -/
theorem C9_smooth_volume_total (buffer : List ℚ) (r : ℚ) :
    0 < (smooth_volume buffer r).1.length ∧
    (smooth_volume buffer r).2 * ((smooth_volume buffer r).1.length : ℚ) =
      (smooth_volume buffer r).1.sum := by
  have hlen := smooth_volume_length_pos buffer r
  refine ⟨hlen, ?_⟩
  rw [smooth_volume_snd, div_mul_cancel₀]
  exact_mod_cast hlen.ne'

/-- Claim C8: after the recalibration command the smoothing window is empty,
and feeding any single reading `r` next makes `r` the window's sole element
and returns exactly `r` as the smoothed value. -/
theorem C8_recalibration (buffer : List ℚ) (r : ℚ) :
    calibrate buffer = [] ∧
    (smooth_volume (calibrate buffer) r).1 = [r] ∧
    (smooth_volume (calibrate buffer) r).2 = r := by
  refine ⟨rfl, ?_, ?_⟩ <;>
    simp [calibrate, smooth_volume, smooth_buffer, SMOOTHING_WINDOW]

/-- Claim C2: for every sequence of readings fed to the filter from its empty
initial state, the buffer after the `(K = xs.length + 1)`-th reading holds
exactly the most recent `min K 5` readings (the oldest evicted FIFO), and
the returned smoothed value is their arithmetic mean: for `K ≤ 5` the mean
of exactly the `K` readings fed so far (`drop (K - 5)` drops nothing), for
`K > 5` the mean of the most recent `5`. -/
theorem C2_moving_average (xs : List ℚ) (r : ℚ) :
    (smooth_volume (feed_buffer [] xs) r).1 =
      (xs ++ [r]).drop (xs.length + 1 - SMOOTHING_WINDOW) ∧
    (smooth_volume (feed_buffer [] xs) r).1.length =
      min (xs.length + 1) SMOOTHING_WINDOW ∧
    (smooth_volume (feed_buffer [] xs) r).2 =
      ((xs ++ [r]).drop (xs.length + 1 - SMOOTHING_WINDOW)).sum /
        ((min (xs.length + 1) SMOOTHING_WINDOW : ℕ) : ℚ) := by
  have h1 : (smooth_volume (feed_buffer [] xs) r).1 =
      (xs ++ [r]).drop (xs.length + 1 - SMOOTHING_WINDOW) := by
    rw [← feed_buffer_append, feed_buffer_nil_eq_drop]
    simp
  have h2 : (smooth_volume (feed_buffer [] xs) r).1.length =
      min (xs.length + 1) SMOOTHING_WINDOW := by
    rw [h1]
    simp only [List.length_drop, List.length_append, List.length_singleton]
    omega
  refine ⟨h1, h2, ?_⟩
  rw [smooth_volume_snd, h2, h1]

/-! ## Helper lemmas about the dispatcher -/

/-- The function `set_volume` never changes `min_interval`. -/
theorem set_volume_min_interval (s : VCState) (t : ℚ) (k : Bool) (x : ℚ) :
    (set_volume s t k x).state.min_interval = s.min_interval := by
  unfold set_volume
  split
  · rfl
  · split <;> rfl

/-- A `set_volume` call that returned `False` left the controller state
byte-for-byte unchanged: both the rate-limited early return and a failed
`_set_system_volume` keep `current_volume` and `last_set_time`. -/
theorem set_volume_not_ok (s : VCState) (t : ℚ) (k : Bool) (x : ℚ)
    (h : (set_volume s t k x).ok = false) :
    (set_volume s t k x).state = s := by
  unfold set_volume at *
  by_cases h1 : t - s.last_set_time < s.min_interval
  · rw [if_pos h1]
  · rw [if_neg h1] at h ⊢
    by_cases h2 : set_system_volume s.volume_method k = true
    · rw [if_pos h2] at h
      exact absurd h (by simp)
    · rw [if_neg h2]

/-- A `set_volume` call that returned `True` passed the rate check, stored
the clamped requested volume and stamped the call time. -/
theorem set_volume_ok (s : VCState) (t : ℚ) (k : Bool) (x : ℚ)
    (h : (set_volume s t k x).ok = true) :
    s.min_interval ≤ t - s.last_set_time ∧
    (set_volume s t k x).state.last_set_time = t ∧
    (set_volume s t k x).state.current_volume =
      max 0 (min 100 (pyInt x)) := by
  unfold set_volume at *
  split at h
  · exact absurd h (by simp)
  · rename_i hrate
    split at h
    · rename_i hsys
      rw [if_neg hrate, if_pos hsys]
      exact ⟨le_of_not_lt hrate, rfl, rfl⟩
    · exact absurd h (by simp)

/-- With `unsupported` as the probed method, every `set_volume` call
returns `False` and leaves the controller state unchanged. -/
theorem set_volume_unsupported (s : VCState) (t : ℚ) (k : Bool) (x : ℚ)
    (h : s.volume_method = VolumeMethod.unsupported) :
    (set_volume s t k x).ok = false ∧ (set_volume s t k x).state = s := by
  unfold set_volume
  rw [h]
  split
  · exact ⟨rfl, rfl⟩
  · simp [set_system_volume]

/-- Consecutive successful hardware writes of any call trace are at least
`min_interval` apart, counting from the stored `last_set_time`. -/
theorem success_times_chain (calls : List VCCall) : ∀ s : VCState,
    List.Chain' (fun a b => s.min_interval ≤ b - a)
      (s.last_set_time :: success_times s calls) := by
  induction calls with
  | nil =>
    intro s
    simp [success_times]
  | cons c rest ih =>
    intro s
    unfold success_times
    by_cases h : (set_volume s c.time c.sys_ok c.request).ok = true
    · rw [if_pos h, List.chain'_cons]
      have hs := set_volume_ok s c.time c.sys_ok c.request h
      refine ⟨hs.1, ?_⟩
      have hchain := ih (set_volume s c.time c.sys_ok c.request).state
      rw [hs.2.1] at hchain
      simpa only [set_volume_min_interval] using hchain
    · rw [if_neg h,
        set_volume_not_ok s c.time c.sys_ok c.request (by simpa using h)]
      exact ih s

/-! ## Dispatcher claims -/

/-- Claim C4: for every trace of `set_volume` calls, the times of successful
hardware writes form a chain in which each write is at least `min_interval`
(0.1 s at `VCState.init`) after the previous one (and after the stored
`last_set_time`); and a call arriving before the interval has elapsed
returns `False` without attempting the underlying write (`attempted =
false`) and without mutating the stored volume or timestamp. -/
theorem C4_rate_limiting (s : VCState) (calls : List VCCall) (t : ℚ)
    (k : Bool) (x : ℚ)
    (h : t - s.last_set_time < s.min_interval) :
    List.Chain' (fun a b => s.min_interval ≤ b - a)
      (s.last_set_time :: success_times s calls) ∧
    set_volume s t k x = ⟨false, s, false⟩ := by
  refine ⟨success_times_chain calls s, ?_⟩
  unfold set_volume
  rw [if_pos h]

/-- Witness for C4: the default controller (interval 0.1 s) over a concrete
trace whose second call arrives 0.05 s after a successful write, plus a
rate-limited call at time 1/20. -/
theorem C4_rate_limiting_witness :
    List.Chain' (fun a b => (VCState.init .linux_alsa).min_interval ≤ b - a)
      ((VCState.init .linux_alsa).last_set_time ::
        success_times (VCState.init .linux_alsa)
          [⟨1, true, 30⟩, ⟨21 / 20, true, 40⟩, ⟨2, true, 60⟩]) ∧
    set_volume (VCState.init .linux_alsa) (1 / 20) true 30 =
      ⟨false, VCState.init .linux_alsa, false⟩ :=
  C4_rate_limiting _ _ _ _ _ (by norm_num [VCState.init])

/-- The function `set_volume` keeps the stored volume inside `[0, 100]`. -/
theorem set_volume_volume_range (s : VCState) (t : ℚ) (k : Bool) (x : ℚ)
    (h0 : 0 ≤ s.current_volume) (h1 : s.current_volume ≤ 100) :
    0 ≤ (set_volume s t k x).state.current_volume ∧
    (set_volume s t k x).state.current_volume ≤ 100 := by
  unfold set_volume
  split
  · exact ⟨h0, h1⟩
  · split
    · exact ⟨le_max_left _ _, max_le (by norm_num) (min_le_left _ _)⟩
    · exact ⟨h0, h1⟩

/-- The stored volume stays inside `[0, 100]` over every call trace. -/
theorem vc_run_state_range (calls : List VCCall) : ∀ s : VCState,
    0 ≤ s.current_volume → s.current_volume ≤ 100 →
    0 ≤ (vc_run_state s calls).current_volume ∧
    (vc_run_state s calls).current_volume ≤ 100 := by
  induction calls with
  | nil => exact fun s h0 h1 => ⟨h0, h1⟩
  | cons c rest ih =>
    intro s h0 h1
    unfold vc_run_state
    have h := set_volume_volume_range s c.time c.sys_ok c.request h0 h1
    exact ih _ h.1 h.2

/-- Claim C10: whenever the rate limit has elapsed, `set_volume` attempts the
dispatch for every numeric input `x` (out-of-range and fractional values
included) and, on success, stores `max(0, min(100, int(x)))` rather than
rejecting or passing the raw value through; consequently the controller's
stored volume remains in `[0, 100]` over every call trace from
initialization. -/
theorem C10_input_clamping (s : VCState) (t : ℚ) (k : Bool) (x : ℚ)
    (h : s.min_interval ≤ t - s.last_set_time) :
    (set_volume s t k x).attempted = true ∧
    ((set_volume s t k x).ok = true →
      (set_volume s t k x).state.current_volume =
        max 0 (min 100 (pyInt x))) ∧
    ∀ (m : VolumeMethod) (calls : List VCCall),
      0 ≤ (vc_run_state (VCState.init m) calls).current_volume ∧
      (vc_run_state (VCState.init m) calls).current_volume ≤ 100 := by
  have hn : ¬ t - s.last_set_time < s.min_interval := not_lt.mpr h
  refine ⟨?_, fun hok => (set_volume_ok s t k x hok).2.2,
    fun m calls =>
      vc_run_state_range calls _ (by norm_num [VCState.init])
        (by norm_num [VCState.init])⟩
  unfold set_volume
  rw [if_neg hn]
  split <;> rfl

/-- Witness for C10: the fresh controller at time 1 asked for the
fractional, out-of-range volume 1003/4 = 250.75 attempts the write, would
store `max 0 (min 100 (int 250.75)) = 100` on success, and the range
invariant holds for every trace. -/
theorem C10_input_clamping_witness :
    (set_volume (VCState.init .linux_pulseaudio) 1 true
        (1003 / 4)).attempted = true ∧
    ((set_volume (VCState.init .linux_pulseaudio) 1 true (1003 / 4)).ok =
        true →
      (set_volume (VCState.init .linux_pulseaudio) 1 true
          (1003 / 4)).state.current_volume =
        max 0 (min 100 (pyInt (1003 / 4)))) ∧
    ∀ (m : VolumeMethod) (calls : List VCCall),
      0 ≤ (vc_run_state (VCState.init m) calls).current_volume ∧
      (vc_run_state (VCState.init m) calls).current_volume ≤ 100 :=
  C10_input_clamping _ _ _ _ (by norm_num [VCState.init])

/-! ## Unsupported-backend behaviour (C6) -/

/-- Counterexample for claim C6 as stated: with the probe result
`unsupported`, one simulation frame (run at time 7, so the rate limit has
elapsed) still moves the app-global volume — the one `/status` reports —
from its initial 50 to 99, even though the controller's own stored volume
stays 50.  "The volume value never changes from its initial value" fails
for the shared `current_volume`. -/
theorem C6_counterexample :
    (app_init .unsupported).current_volume = 50 ∧
    (sim_frame (app_init .unsupported) SimState.init 7 true).1.current_volume
      = 99 ∧
    (sim_frame (app_init .unsupported) SimState.init 7 true).1.vc.current_volume
      = 50 ∧
    (99 : ℤ) ≠ 50 := by
  refine ⟨rfl, ?_, ?_, by decide⟩ <;>
  norm_num [sim_frame, app_init, SimState.init, sim_step,
    sim_relative_height, clamp100, smooth_volume, smooth_buffer, SMOOTHING_WINDOW,
    VCState.init, set_volume, set_system_volume, pyInt, min_def, max_def,
    abs]

/-- Claim C6 amended: with the probe result `unsupported`, every subsequent
`set_volume` call returns `False` and leaves the controller state
unchanged, so over any call trace the controller's stored volume (and
timestamp) keep their initial values and no write ever succeeds; the
app-global `current_volume` shown by `/status`, however, can still change,
because `generate_frames` assigns it before consulting the call's result. -/
theorem C6_unsupported_noop (s : VCState) (calls : List VCCall)
    (h : s.volume_method = VolumeMethod.unsupported) :
    vc_run_state s calls = s ∧
    success_times s calls = [] ∧
    ∀ (t : ℚ) (k : Bool) (x : ℚ),
      (set_volume s t k x).ok = false ∧ (set_volume s t k x).state = s := by
  induction calls generalizing s with
  | nil => exact ⟨rfl, rfl, fun t k x => set_volume_unsupported s t k x h⟩
  | cons c rest ih =>
    have hc := set_volume_unsupported s c.time c.sys_ok c.request h
    refine ⟨?_, ?_, fun t k x => set_volume_unsupported s t k x h⟩
    · unfold vc_run_state
      rw [hc.2]
      exact (ih s h).1
    · unfold success_times
      rw [if_neg (by simp [hc.1]), hc.2]
      exact (ih s h).2.1

/-- Witness for C6 amended: the freshly initialized `unsupported`
controller over a concrete two-call trace. -/
theorem C6_unsupported_noop_witness :
    vc_run_state (VCState.init .unsupported) [⟨1, true, 80⟩, ⟨2, true, 20⟩]
      = VCState.init .unsupported ∧
    success_times (VCState.init .unsupported)
      [⟨1, true, 80⟩, ⟨2, true, 20⟩] = [] ∧
    ∀ (t : ℚ) (k : Bool) (x : ℚ),
      (set_volume (VCState.init .unsupported) t k x).ok = false ∧
      (set_volume (VCState.init .unsupported) t k x).state =
        VCState.init .unsupported :=
  C6_unsupported_noop _ _ rfl

/-! ## The shared volume on failed dispatches (C1) -/

/-- Counterexample for claim C1 as stated: on the first simulation frame of
an `unsupported`-backend run (at time 1000, rate limit elapsed), the
dispatcher call made by the frame — `set_volume` of 99 — returns `False`,
yet the authoritative shared `current_volume` changes from 50 to 99:
`generate_frames` assigns the global before calling `set_volume` and
ignores the returned value. -/
theorem C1_counterexample :
    (set_volume (app_init .unsupported).vc 1000 true (99 : ℚ)).ok = false ∧
    (sim_frame (app_init .unsupported) SimState.init 1000 true).1.current_volume
      = 99 ∧
    (app_init .unsupported).current_volume = 50 ∧
    (99 : ℤ) ≠ 50 := by
  refine ⟨?_, ?_, rfl, by decide⟩ <;>
  norm_num [sim_frame, app_init, SimState.init, sim_step,
    sim_relative_height, clamp100, smooth_volume, smooth_buffer, SMOOTHING_WINDOW,
    VCState.init, set_volume, set_system_volume, pyInt, min_def, max_def,
    abs]

/-- Claim C1 amended: the invariant does hold one level down: the
*dispatcher's* stored volume and timestamp change only as a result of a
`set_volume` call that returned success, and a failed or rate-limited call
leaves the controller state byte-for-byte unchanged.  The app-global
`current_volume` shared with `/status`, by contrast, is assigned on every
gate acceptance regardless of the dispatcher's result (shown here for a
simulation frame whose gate accepts while its dispatcher call fails). -/
theorem C1_volume_state_on_failure (s : VCState) (t : ℚ) (k : Bool) (x : ℚ)
    (a : AppState) (sim : SimState) (u : ℚ) (k2 : Bool)
    (hfail : (set_volume s t k x).ok = false)
    (hacc : 1 < |(smooth_volume a.buffer
        (sim_relative_height (sim_step sim).simulated_finger_y)).2 -
        (a.current_volume : ℚ)|) :
    (set_volume s t k x).state = s ∧
    (sim_frame a sim u k2).1.current_volume =
      pyInt (smooth_volume a.buffer
        (sim_relative_height (sim_step sim).simulated_finger_y)).2 := by
  refine ⟨set_volume_not_ok s t k x hfail, ?_⟩
  unfold sim_frame
  rw [if_pos hacc]

/-- Witness for C1 amended: a failing `unsupported` call at time 3 leaves
its controller state unchanged, while the first simulation frame's gate
(smoothed value 695/7 against volume 50) accepts and writes 99 into the
shared volume. -/
theorem C1_volume_state_on_failure_witness :
    (set_volume (VCState.init .unsupported) 3 true (42 : ℚ)).state =
      VCState.init .unsupported ∧
    (sim_frame (app_init .unsupported) SimState.init 1000 true).1.current_volume
      = pyInt (smooth_volume (app_init .unsupported).buffer
          (sim_relative_height
            (sim_step SimState.init).simulated_finger_y)).2 :=
  C1_volume_state_on_failure _ 3 true 42 _ _ 1000 true
    (by norm_num [VCState.init, set_volume, set_system_volume, pyInt])
    (by norm_num [app_init, SimState.init, sim_step, sim_relative_height,
      clamp100, smooth_volume, smooth_buffer, SMOOTHING_WINDOW, min_def, max_def, abs])

/-! ## The gesture-activity flag (C5) -/

/-- Counterexample for claim C5 as stated: live mode, starting from the
initial app state.  Frame 1 sees no hand (`gesture_active` becomes
`False`).  Frame 2 obtains a reading — a hand with the fingertip on the
wrist row, reading 50, which enters the smoothing buffer — but the gate
rejects (|50 − 50| ≤ 2), and `gesture_active` stays `False` although a
positional reading was obtained that frame. -/
theorem C5_counterexample :
    (live_frame (live_frame (app_init .linux_pulseaudio) .noHand 1 true)
      (.hand 300 300) 2 true).gesture_active = false ∧
    (live_frame (live_frame (app_init .linux_pulseaudio) .noHand 1 true)
      (.hand 300 300) 2 true).buffer = [50] := by
  constructor <;>
  norm_num [live_frame, app_init, VCState.init, live_relative_height,
    clamp100, smooth_volume, smooth_buffer, SMOOTHING_WINDOW, set_volume,
    set_system_volume, pyInt, min_def, max_def, abs]

/-- Claim C5 amended: `gesture_active` is assigned `False` on live frames
with no hand, and assigned `True` only on frames whose gate accepts a
change; on a frame that obtains a reading but whose gate rejects — in
either mode — the flag merely retains its previous value (in particular
simulation mode never assigns it `False`, rather than holding it always
`True`). -/
theorem C5_gesture_flag (a : AppState) (t u : ℚ) (k k2 : Bool)
    (fy wy : ℤ) (sim : SimState) :
    (live_frame a .noHand t k).gesture_active = false ∧
    (live_frame a (.hand fy wy) t k).gesture_active =
      (if 2 < |(smooth_volume a.buffer (live_relative_height fy wy)).2 -
          (a.current_volume : ℚ)| then true else a.gesture_active) ∧
    (sim_frame a sim u k2).1.gesture_active =
      (if 1 < |(smooth_volume a.buffer
          (sim_relative_height (sim_step sim).simulated_finger_y)).2 -
          (a.current_volume : ℚ)| then true else a.gesture_active) := by
  refine ⟨rfl, ?_, ?_⟩
  · by_cases h : 2 < |(smooth_volume a.buffer (live_relative_height fy wy)).2
        - (a.current_volume : ℚ)|
    · simp only [live_frame, if_pos h]
    · simp only [live_frame, if_neg h]
  · by_cases h : 1 < |(smooth_volume a.buffer
        (sim_relative_height (sim_step sim).simulated_finger_y)).2 -
        (a.current_volume : ℚ)|
    · simp only [sim_frame, if_pos h]
    · simp only [sim_frame, if_neg h]

/-! ## The decision gate (C3) -/

/-- The reading clamp keeps every reading inside `[0, 100]`. -/
theorem clamp100_bounds (q : ℚ) : 0 ≤ clamp100 q ∧ clamp100 q ≤ 100 :=
  ⟨le_max_left _ _, max_le (by norm_num) (min_le_left _ _)⟩

/-- The mean of a non-empty list of values in `[0, 100]` is in `[0, 100]`. -/
theorem list_mean_bounds (l : List ℚ) (h : ∀ x ∈ l, 0 ≤ x ∧ x ≤ 100)
    (hl : 0 < l.length) :
    0 ≤ l.sum / (l.length : ℚ) ∧ l.sum / (l.length : ℚ) ≤ 100 := by
  have hpos : (0 : ℚ) < (l.length : ℚ) := by exact_mod_cast hl
  constructor
  · exact div_nonneg (List.sum_nonneg fun x hx => (h x hx).1) hpos.le
  · rw [div_le_iff₀ hpos]
    calc l.sum ≤ l.length • (100 : ℚ) :=
          List.sum_le_card_nsmul l 100 fun x hx => (h x hx).2
      _ = 100 * (l.length : ℚ) := by rw [nsmul_eq_mul]; ring

/-- Feeding a reading in `[0, 100]` into a buffer of values in `[0, 100]`
keeps the buffer inside `[0, 100]` and returns a smoothed value in
`[0, 100]`. -/
theorem smooth_volume_bounds (b : List ℚ) (r : ℚ)
    (hb : ∀ x ∈ b, 0 ≤ x ∧ x ≤ 100) (hr0 : 0 ≤ r) (hr1 : r ≤ 100) :
    (∀ x ∈ (smooth_volume b r).1, 0 ≤ x ∧ x ≤ 100) ∧
    0 ≤ (smooth_volume b r).2 ∧ (smooth_volume b r).2 ≤ 100 := by
  have hmem : ∀ x ∈ (smooth_volume b r).1, 0 ≤ x ∧ x ≤ 100 := by
    intro x hx
    rcases List.mem_append.mp (smooth_volume_buffer_mem b r x hx) with h | h
    · exact hb x h
    · rw [List.mem_singleton.mp h]
      exact ⟨hr0, hr1⟩
  have hmean := list_mean_bounds (smooth_volume b r).1 hmem
    (smooth_volume_length_pos b r)
  rw [← smooth_volume_snd] at hmean
  exact ⟨hmem, hmean⟩

/-- Python's `int(...)` is the floor on the non-negative values the
pipeline produces. -/
theorem pyInt_of_nonneg (q : ℚ) (h : 0 ≤ q) : pyInt q = ⌊q⌋ := if_pos h

/-- For a value in `[0, 100]`, its floor is already in `[0, 100]`, so the
clamp is the identity on it. -/
theorem floor_clamp_eq (q : ℚ) (h0 : 0 ≤ q) (h1 : q ≤ 100) :
    max 0 (min 100 ⌊q⌋) = ⌊q⌋ ∧ 0 ≤ ⌊q⌋ ∧ ⌊q⌋ ≤ 100 := by
  have hf0 : 0 ≤ ⌊q⌋ := Int.floor_nonneg.mpr h0
  have hf1 : ⌊q⌋ ≤ 100 := by
    have h : (⌊q⌋ : ℚ) ≤ 100 := le_trans (Int.floor_le q) h1
    exact_mod_cast h
  exact ⟨by rw [min_eq_right hf1, max_eq_right hf0], hf0, hf1⟩

/-- Claim C3: the Volume Decision Gate: on every frame, in either mode, a
candidate whose absolute difference from the shared volume is at most the
mode's threshold (1 in simulation, 2 in live) is never accepted — volume
and controller are left untouched — and when the gate does accept, the
applied integer volume is `⌊smoothed⌋`, which (the smoothed value lying in
`[0, 100]` because every buffered reading is clamped) coincides with
`⌊smoothed⌋` clamped to `[0, 100]`. -/
theorem C3_decision_gate (a : AppState) (sim : SimState) (t u : ℚ)
    (k k2 : Bool) (fy wy : ℤ)
    (hb : ∀ x ∈ a.buffer, 0 ≤ x ∧ x ≤ 100) :
    (¬ 1 < |(smooth_volume a.buffer
        (sim_relative_height (sim_step sim).simulated_finger_y)).2 -
        (a.current_volume : ℚ)| →
      (sim_frame a sim t k).1.current_volume = a.current_volume ∧
      (sim_frame a sim t k).1.vc = a.vc) ∧
    (1 < |(smooth_volume a.buffer
        (sim_relative_height (sim_step sim).simulated_finger_y)).2 -
        (a.current_volume : ℚ)| →
      (sim_frame a sim t k).1.current_volume =
        ⌊(smooth_volume a.buffer
          (sim_relative_height (sim_step sim).simulated_finger_y)).2⌋ ∧
      (sim_frame a sim t k).1.current_volume =
        max 0 (min 100 ⌊(smooth_volume a.buffer
          (sim_relative_height (sim_step sim).simulated_finger_y)).2⌋)) ∧
    (¬ 2 < |(smooth_volume a.buffer (live_relative_height fy wy)).2 -
        (a.current_volume : ℚ)| →
      (live_frame a (.hand fy wy) u k2).current_volume = a.current_volume ∧
      (live_frame a (.hand fy wy) u k2).vc = a.vc) ∧
    (2 < |(smooth_volume a.buffer (live_relative_height fy wy)).2 -
        (a.current_volume : ℚ)| →
      (live_frame a (.hand fy wy) u k2).current_volume =
        ⌊(smooth_volume a.buffer (live_relative_height fy wy)).2⌋ ∧
      (live_frame a (.hand fy wy) u k2).current_volume =
        max 0 (min 100 ⌊(smooth_volume a.buffer
          (live_relative_height fy wy)).2⌋)) := by
  have hsim := smooth_volume_bounds a.buffer
    (sim_relative_height (sim_step sim).simulated_finger_y) hb
    (clamp100_bounds _).1 (clamp100_bounds _).2
  have hlive := smooth_volume_bounds a.buffer (live_relative_height fy wy)
    hb (clamp100_bounds _).1 (clamp100_bounds _).2
  have hsimf := floor_clamp_eq _ hsim.2.1 hsim.2.2
  have hlivef := floor_clamp_eq _ hlive.2.1 hlive.2.2
  refine ⟨fun h => ?_, fun h => ?_, fun h => ?_, fun h => ?_⟩
  · simp only [sim_frame, if_neg h]
    exact ⟨by trivial, by trivial⟩
  · simp only [sim_frame, if_pos h]
    rw [pyInt_of_nonneg _ hsim.2.1]
    exact ⟨by trivial, (hsimf.1).symm⟩
  · simp only [live_frame, if_neg h]
    exact ⟨by trivial, by trivial⟩
  · simp only [live_frame, if_pos h]
    rw [pyInt_of_nonneg _ hlive.2.1]
    exact ⟨by trivial, (hlivef.1).symm⟩

/-- Witness for C3: the initial app state (empty buffer, so the bound on
buffered readings is vacuous), the initial oscillator, and a live hand with
the fingertip on the wrist row. -/
theorem C3_decision_gate_witness :
    (¬ 1 < |(smooth_volume (app_init .linux_alsa).buffer
        (sim_relative_height
          (sim_step SimState.init).simulated_finger_y)).2 -
        ((app_init .linux_alsa).current_volume : ℚ)| →
      (sim_frame (app_init .linux_alsa) SimState.init 5 true).1.current_volume
          = (app_init .linux_alsa).current_volume ∧
      (sim_frame (app_init .linux_alsa) SimState.init 5 true).1.vc =
        (app_init .linux_alsa).vc) ∧
    (1 < |(smooth_volume (app_init .linux_alsa).buffer
        (sim_relative_height
          (sim_step SimState.init).simulated_finger_y)).2 -
        ((app_init .linux_alsa).current_volume : ℚ)| →
      (sim_frame (app_init .linux_alsa) SimState.init 5 true).1.current_volume
          = ⌊(smooth_volume (app_init .linux_alsa).buffer
            (sim_relative_height
              (sim_step SimState.init).simulated_finger_y)).2⌋ ∧
      (sim_frame (app_init .linux_alsa) SimState.init 5 true).1.current_volume
          = max 0 (min 100 ⌊(smooth_volume (app_init .linux_alsa).buffer
            (sim_relative_height
              (sim_step SimState.init).simulated_finger_y)).2⌋)) ∧
    (¬ 2 < |(smooth_volume (app_init .linux_alsa).buffer
        (live_relative_height 300 300)).2 -
        ((app_init .linux_alsa).current_volume : ℚ)| →
      (live_frame (app_init .linux_alsa) (.hand 300 300) 5 true).current_volume
          = (app_init .linux_alsa).current_volume ∧
      (live_frame (app_init .linux_alsa) (.hand 300 300) 5 true).vc =
        (app_init .linux_alsa).vc) ∧
    (2 < |(smooth_volume (app_init .linux_alsa).buffer
        (live_relative_height 300 300)).2 -
        ((app_init .linux_alsa).current_volume : ℚ)| →
      (live_frame (app_init .linux_alsa) (.hand 300 300) 5 true).current_volume
          = ⌊(smooth_volume (app_init .linux_alsa).buffer
            (live_relative_height 300 300)).2⌋ ∧
      (live_frame (app_init .linux_alsa) (.hand 300 300) 5 true).current_volume
          = max 0 (min 100 ⌊(smooth_volume (app_init .linux_alsa).buffer
            (live_relative_height 300 300)).2⌋)) :=
  C3_decision_gate (app_init .linux_alsa) SimState.init 5 5 true true
    300 300 (by simp [app_init])

/-! ## The simulation oscillator and its mapping (C7) -/

/-- The initial oscillator state satisfies the invariant. -/
theorem SimInv_init : SimInv SimState.init := by
  unfold SimInv SimState.init
  norm_num

/-- One oscillator step preserves the invariant. -/
theorem SimInv_step (st : SimState) (h : SimInv st) :
    SimInv (sim_step st) := by
  obtain ⟨hd, h1, h2, h3, h4, h5⟩ := h
  simp only [SimInv, sim_step]
  split_ifs <;> omega

/-- On the oscillator's range, the simulation mapping is the clamped
linear map `min 100 (100 − (y − 240)·5/14)`: slope 5/14 of a reading unit
per pixel around a centre value of 100 at `y = 240`, so the readings it
produces lie in `[50, 100]`. -/
theorem sim_relative_height_on_range (y : ℤ) (_hlow : 100 ≤ y)
    (h2 : y ≤ 380) :
    sim_relative_height y = min 100 (100 - ((y : ℚ) - 240) * 5 / 14) ∧
    50 ≤ sim_relative_height y ∧ sim_relative_height y ≤ 100 := by
  have hy2 : ((y : ℚ)) ≤ 380 := by exact_mod_cast h2
  have heq : (100 : ℚ) - ((y : ℚ) - 240) / 140 * 50 =
      100 - ((y : ℚ) - 240) * 5 / 14 := by ring
  have hv50 : (50 : ℚ) ≤ 100 - ((y : ℚ) - 240) * 5 / 14 := by linarith
  have h0v : (0 : ℚ) ≤ 100 - ((y : ℚ) - 240) * 5 / 14 := by linarith
  unfold sim_relative_height clamp100
  rw [heq]
  have hmax : max 0 (min 100 (100 - ((y : ℚ) - 240) * 5 / 14)) =
      min 100 (100 - ((y : ℚ) - 240) * 5 / 14) :=
    max_eq_right (le_min (by norm_num) h0v)
  refine ⟨hmax, ?_, ?_⟩
  · rw [hmax]
    exact le_min (by norm_num) hv50
  · rw [hmax]
    exact min_le_left _ _

/-- Counterexample for claim C7 as stated: the simulation mapping is *not*
the live-mode linear-scale-and-clamp formula.  At the oscillator bound
`y = 380` (offset +140 from the centre 240) the simulation map yields 50,
while the live formula at offset +140 yields 15; and at offset +200
(`y = 440`) the simulation map yields 200/7 ≈ 28.6, not the 0 that a
"±200 pixels spans the full range" map would give. -/
theorem C7_counterexample :
    sim_relative_height 380 = 50 ∧
    live_relative_height 140 0 = 15 ∧
    (50 : ℚ) ≠ 15 ∧
    sim_relative_height 440 = 200 / 7 := by
  norm_num [sim_relative_height, live_relative_height, clamp100, min_def,
    max_def]

/-- Claim C7 amended: the synthetic finger position is a deterministic
triangle wave: starting from the invariant-satisfying initial state, each
frame moves the position by `direction · 2`, the position stays within the
bounds `[100, 380]`, the direction flips to −1 exactly on reaching 380 and
to 1 exactly on reaching 100 and is unchanged strictly between the bounds.
Each position is mapped to its reading not by the live-mode ±200 formula
but by the clamped linear map `min 100 (100 − (y − 240)·5/14)`, whose
values over the oscillator's range lie in `[50, 100]`. -/
theorem C7_triangle_wave (st : SimState) (h : SimInv st) :
    SimInv SimState.init ∧
    (sim_step st).simulated_finger_y =
      st.simulated_finger_y + st.finger_direction * 2 ∧
    SimInv (sim_step st) ∧
    ((sim_step st).simulated_finger_y = 380 →
      (sim_step st).finger_direction = -1) ∧
    ((sim_step st).simulated_finger_y = 100 →
      (sim_step st).finger_direction = 1) ∧
    (100 < (sim_step st).simulated_finger_y →
      (sim_step st).simulated_finger_y < 380 →
      (sim_step st).finger_direction = st.finger_direction) ∧
    sim_relative_height (sim_step st).simulated_finger_y =
      min 100 (100 - (((sim_step st).simulated_finger_y : ℚ) - 240) * 5 / 14) ∧
    50 ≤ sim_relative_height (sim_step st).simulated_finger_y ∧
    sim_relative_height (sim_step st).simulated_finger_y ≤ 100 := by
  have hstep := SimInv_step st h
  obtain ⟨hd', h1', h2', h3', h4', h5'⟩ := hstep
  have hmap := sim_relative_height_on_range _ h1' h2'
  refine ⟨SimInv_init, rfl, SimInv_step st h, h4', h5', ?_, hmap.1,
    hmap.2.1, hmap.2.2⟩
  intro hgt hlt
  simp only [sim_step] at hgt hlt ⊢
  split_ifs with c1 c2
  · omega
  · omega
  · rfl

/-- Witness for C7 amended: the oscillator's initial state. -/
theorem C7_triangle_wave_witness :
    SimInv SimState.init ∧
    (sim_step SimState.init).simulated_finger_y =
      SimState.init.simulated_finger_y +
        SimState.init.finger_direction * 2 ∧
    SimInv (sim_step SimState.init) ∧
    ((sim_step SimState.init).simulated_finger_y = 380 →
      (sim_step SimState.init).finger_direction = -1) ∧
    ((sim_step SimState.init).simulated_finger_y = 100 →
      (sim_step SimState.init).finger_direction = 1) ∧
    (100 < (sim_step SimState.init).simulated_finger_y →
      (sim_step SimState.init).simulated_finger_y < 380 →
      (sim_step SimState.init).finger_direction =
        SimState.init.finger_direction) ∧
    sim_relative_height (sim_step SimState.init).simulated_finger_y =
      min 100 (100 -
        (((sim_step SimState.init).simulated_finger_y : ℚ) - 240) * 5 / 14) ∧
    50 ≤ sim_relative_height (sim_step SimState.init).simulated_finger_y ∧
    sim_relative_height (sim_step SimState.init).simulated_finger_y ≤ 100 :=
  C7_triangle_wave SimState.init SimInv_init

end VolumeGesture
